import Mathlib

/-!
Verification of the frame-geometry resolver, playback state machine and code
emitter of the Excalibur spritesheet tool (`src/App.tsx`).  All numeric fields
of the source are JavaScript numbers that the data-model invariants declare to
be finite integers, so they are embedded as `Int`; loop counters and list
positions are `Nat`.
-/

namespace AnimGen

/-- A 2-D integer vector, embedding the `{ x: number; y: number }` objects used
for `originOffset` and `margin` in `GridConfig` (App.tsx lines 12-13). -/
structure Vec2 where
  x : Int
  y : Int
deriving DecidableEq, Repr

/-- Embeds the `GridConfig` type (App.tsx lines 7-14). -/
structure GridConfig where
  spriteWidth : Int
  spriteHeight : Int
  rows : Int
  columns : Int
  originOffset : Vec2
  margin : Vec2
deriving DecidableEq, Repr

/-- Embeds the `SourceView` type (App.tsx lines 16-21). -/
structure SourceView where
  x : Int
  y : Int
  width : Int
  height : Int
deriving DecidableEq, Repr

/-- Embeds the `Frame` type (App.tsx lines 23-29).  The `index` field is
assigned from a counter that starts at 0 and increments on each push, so it is
embedded as `Nat`. -/
structure Frame where
  index : Nat
  x : Int
  y : Int
  width : Int
  height : Int
deriving DecidableEq, Repr

/-- The image collaborator only supplies pixel dimensions (spec section 1). -/
structure ImageDims where
  width : Int
  height : Int
deriving DecidableEq, Repr

/-- Row-major enumeration of grid cells: the nested
`for (row = 0; row < rows; row++) for (col = 0; col < columns; col++)` loops of
`parseGridFrames` (App.tsx lines 121-122).  A non-positive bound runs zero
iterations, exactly as the JavaScript loops do. -/
def gridCells (rows columns : Int) : List (Nat × Nat) :=
  (List.range rows.toNat).flatMap fun row =>
    (List.range columns.toNat).map fun col => (row, col)

/-- The frame list built by the loop body of `parseGridFrames`
(App.tsx lines 118-132).  The running `index` counter equals the position of
the pushed frame in the result, which `List.enum` makes explicit. -/
def gridFrames (cfg : GridConfig) : List Frame :=
  (gridCells cfg.rows cfg.columns).enum.map fun p =>
    { index := p.1
      x := cfg.originOffset.x + (p.2.2 : Int) * (cfg.spriteWidth + cfg.margin.x)
      y := cfg.originOffset.y + (p.2.1 : Int) * (cfg.spriteHeight + cfg.margin.y)
      width := cfg.spriteWidth
      height := cfg.spriteHeight }

/-- Embeds `parseGridFrames` (App.tsx lines 115-135).  When no image is loaded
the source returns early without calling `setFrames`, leaving the previous
frame list unchanged; otherwise the loop result replaces it wholesale. -/
def parseGridFrames (image : Option ImageDims) (prev : List Frame)
    (cfg : GridConfig) : List Frame :=
  match image with
  | none => prev
  | some _ => gridFrames cfg

/-- Embeds `parseSourceViewFrames` (App.tsx lines 138-147): a `map` over the
stored `SourceView[]` in which the map position becomes the frame index. -/
def parseSourceViewFrames (sourceViews : List SourceView) : List Frame :=
  sourceViews.enum.map fun p =>
    { index := p.1
      x := p.2.x
      y := p.2.y
      width := p.2.width
      height := p.2.height }

/-- Embeds the `AnimationFrame` type (App.tsx lines 31-34). -/
structure AnimationFrame where
  frameIndex : Int
  duration : Int
deriving DecidableEq, Repr

/-- Embeds the `LoopStrategy` union type (App.tsx line 36). -/
inductive LoopStrategy where
  | Freeze
  | End
  | Loop
  | PingPong
deriving DecidableEq, Repr

/-- Embeds the `Animation` type (App.tsx lines 38-42). -/
structure Animation where
  name : String
  frames : List AnimationFrame
  loopStrategy : LoopStrategy
deriving DecidableEq, Repr

/-- Playback state of the preview: the local `frameIdx` and `direction`
variables of the animation effect together with the `isPlaying` signal
(App.tsx lines 60, 320, 322).  `frameIdx` is an `Int` because the source code
can assign it negative values. -/
structure PlayState where
  frameIdx : Int
  direction : Int
  isPlaying : Bool
deriving DecidableEq, Repr

/-- JavaScript array indexing `l[i]`: `undefined` (here `none`) for any index
outside `[0, l.length)`, including negative indices. -/
def jsGet {α : Type} (l : List α) (i : Int) : Option α :=
  if i < 0 then none else l[i.toNat]?

/-- The frame-advance branch of the `animate` callback (App.tsx lines 331-352),
executed once the accumulated elapsed time reaches the current frame's
duration.  The `End` case returns before `setCurrentFrameIdx`, so the
published step index keeps its old value while `isPlaying` is cleared.
JavaScript `%` truncates toward zero, which is `Int.tmod`. -/
def advanceStep (anim : Animation) (s : PlayState) : PlayState :=
  let len : Int := anim.frames.length
  match anim.loopStrategy with
  | .PingPong =>
      let idx := s.frameIdx + s.direction
      if idx ≥ len then { s with frameIdx := len - 2, direction := -1 }
      else if idx < 0 then { s with frameIdx := 1, direction := 1 }
      else { s with frameIdx := idx }
  | .Loop => { s with frameIdx := (s.frameIdx + 1).tmod len }
  | .Freeze =>
      let idx := s.frameIdx + 1
      if idx ≥ len then { s with frameIdx := len - 1 }
      else { s with frameIdx := idx }
  | .End =>
      let idx := s.frameIdx + 1
      if idx ≥ len then { s with isPlaying := false }
      else { s with frameIdx := idx }

/-- One delivered animation-frame tick: the guards of the preview effect
(App.tsx lines 309 and 318 — while not playing no callback is scheduled, and
an empty frame list schedules none either) followed by one invocation of the
`animate` callback (lines 324-358).  Reading `.duration` of
`anim.frames[frameIdx]` when the index is out of range is a JavaScript
`TypeError`, modelled as `none`. -/
def animateTick (anim : Animation) (s : PlayState) (elapsed : Int) :
    Option PlayState :=
  if s.isPlaying = false then some s
  else if anim.frames.length = 0 then some s
  else
    match jsGet anim.frames s.frameIdx with
    | none => none
    | some currentAnimFrame =>
        if elapsed ≥ currentAnimFrame.duration then some (advanceStep anim s)
        else some s

/-- Embeds the `ParseMode` union type (App.tsx line 5). -/
inductive ParseMode where
  | grid
  | sourceview
deriving DecidableEq, Repr

/-- The slice of the component state that `generateCode` reads
(App.tsx lines 45-62). -/
structure AppState where
  image : Option ImageDims
  parseMode : Option ParseMode
  gridConfig : GridConfig
  sourceViews : List SourceView
  frames : List Frame
  animations : List Animation
  animationGroupName : String
  imagePath : String
deriving DecidableEq, Repr

/-- The header portion of `generateCode` (App.tsx lines 400-405). -/
def codeHeader (imagePath : String) : String := "import \x7b ImageSource, SpriteSheet, Animation, AnimationStrategy \x7d from \x27excalibur\x27;\n\n"
  ++ "// Load the spritesheet image\n"
  ++ "// !!!! THIS IS /public FOLDER IF USING VITE !!!!\n"
  ++ "const imageSource = new ImageSource(\x27" ++ imagePath ++ "\x27);\n\n"
  ++ "// Wait for the image to load\n"
  ++ "await imageSource.load();\n\n"

/-- The `hasSpacing` boolean of `generateCode` (App.tsx lines 418-419). -/
def hasSpacing (cfg : GridConfig) : Bool :=
  cfg.originOffset.x != 0 || cfg.originOffset.y != 0 ||
    cfg.margin.x != 0 || cfg.margin.y != 0

/-- The unconditional grid-descriptor text of `generateCode`
(App.tsx lines 408-416). -/
def gridHead (cfg : GridConfig) : String :=
  "// Create spritesheet using grid-based parsing\n"
  ++ "const spriteSheet = SpriteSheet.fromImageSource(\x7b\n"
  ++ "  image: imageSource,\n"
  ++ "  grid: \x7b\n"
  ++ "    rows: " ++ toString cfg.rows ++ ",\n"
  ++ "    columns: " ++ toString cfg.columns ++ ",\n"
  ++ "    spriteWidth: " ++ toString cfg.spriteWidth ++ ",\n"
  ++ "    spriteHeight: " ++ toString cfg.spriteHeight ++ "\n"
  ++ "  \x7d"

/-- The spacing sub-object text appended when `hasSpacing` holds
(App.tsx lines 421-426). -/
def spacingBlock (cfg : GridConfig) : String :=
  ",\n  spacing: \x7b\n"
  ++ "    originOffset: \x7b x: " ++ toString cfg.originOffset.x
  ++ ", y: " ++ toString cfg.originOffset.y ++ " \x7d,\n"
  ++ "    margin: \x7b x: " ++ toString cfg.margin.x
  ++ ", y: " ++ toString cfg.margin.y ++ " \x7d\n"
  ++ "  \x7d"

/-- The grid-mode section of `generateCode` (App.tsx lines 407-428). -/
def gridBlock (cfg : GridConfig) : String :=
  gridHead cfg ++ (if hasSpacing cfg then spacingBlock cfg else "")
    ++ "\n\x7d);\n\n"

/-- One emitted source-view rectangle (App.tsx line 435). -/
def sourceViewLine (sv : SourceView) : String :=
  "    \x7b x: " ++ toString sv.x ++ ", y: " ++ toString sv.y
  ++ ", width: " ++ toString sv.width ++ ", height: " ++ toString sv.height
  ++ " \x7d"

/-- The source-view-mode section of `generateCode` (App.tsx lines 429-439). -/
def sourceViewsBlock (svs : List SourceView) : String :=
  "// Create spritesheet using source views (irregular frames)\n"
  ++ "const spriteSheet = SpriteSheet.fromImageSourceWithSourceViews(\x7b\n"
  ++ "  image: imageSource,\n"
  ++ "  sourceViews: [\n"
  ++ String.join (svs.enum.map fun p =>
      sourceViewLine p.2 ++ (if p.1 < svs.length - 1 then ",\n" else "\n"))
  ++ "  ]\n"
  ++ "\x7d);\n\n"

/-- The `strategyMap` record of `generateCode` (App.tsx lines 446-451), which
maps every strategy to its own name. -/
def strategyName : LoopStrategy → String
  | .Loop => "Loop"
  | .Freeze => "Freeze"
  | .End => "End"
  | .PingPong => "PingPong"

/-- One emitted animation frame entry (App.tsx line 456). -/
def animFrameLine (f : AnimationFrame) : String :=
  "      \x7b graphic: spriteSheet.sprites[" ++ toString f.frameIndex
  ++ "], duration: " ++ toString f.duration ++ " \x7d"

/-- One emitted animation entry (App.tsx lines 453-463). -/
def animationEntry (anim : Animation) : String :=
  "  " ++ anim.name ++ ": new Animation(\x7b\n"
  ++ "    frames: [\n"
  ++ String.join (anim.frames.enum.map fun p =>
      animFrameLine p.2 ++ (if p.1 < anim.frames.length - 1 then ",\n" else "\n"))
  ++ "    ]"
  ++ ",\n    strategy: AnimationStrategy." ++ strategyName anim.loopStrategy
  ++ "\n  \x7d)"

/-- The animation-definitions section of `generateCode`
(App.tsx lines 442-466). -/
def animationsBlock (groupName : String) (anims : List Animation) : String :=
  "// Animation definitions\n"
  ++ "export const " ++ groupName ++ " = \x7b\n"
  ++ String.join (anims.enum.map fun p =>
      animationEntry p.2 ++ (if p.1 < anims.length - 1 then ",\n" else "\n"))
  ++ "\x7d;\n"

/-- Embeds `generateCode` (App.tsx lines 397-469). -/
def generateCode (s : AppState) : String :=
  if s.image.isNone || s.frames.length == 0 then ""
  else
    codeHeader s.imagePath
    ++ (match s.parseMode with
        | some .grid => gridBlock s.gridConfig
        | some .sourceview => sourceViewsBlock s.sourceViews
        | none => "")
    ++ animationsBlock s.animationGroupName s.animations

/-- The grid configuration of the spec's worked example:
rows 2, columns 3, 16 by 16 sprites, zero offset and margin. -/
def cfg236 : GridConfig :=
  { spriteWidth := 16, spriteHeight := 16, rows := 2, columns := 3,
    originOffset := ⟨0, 0⟩, margin := ⟨0, 0⟩ }

/-- A grid configuration with non-positive sprite width but positive row and
column counts. -/
def cfgZeroWidth : GridConfig :=
  { spriteWidth := 0, spriteHeight := 16, rows := 1, columns := 1,
    originOffset := ⟨0, 0⟩, margin := ⟨0, 0⟩ }

/-- A one-frame PingPong animation. -/
def pingAnim1 : Animation := ⟨"walk", [⟨0, 100⟩], .PingPong⟩

/-- A three-frame animation with the End strategy. -/
def endAnim3 : Animation := ⟨"attack", [⟨0, 100⟩, ⟨1, 100⟩, ⟨2, 100⟩], .End⟩

/-- A three-frame animation with the Freeze strategy. -/
def freezeAnim3 : Animation := ⟨"die", [⟨0, 100⟩, ⟨1, 100⟩, ⟨2, 100⟩], .Freeze⟩

/-- A two-frame Loop animation whose frames both have duration 0. -/
def zeroDurAnim : Animation := ⟨"buzz", [⟨0, 0⟩, ⟨1, 0⟩], .Loop⟩

/-- A state with no loaded image and no resolved frames. -/
def emptyState : AppState :=
  { image := none, parseMode := none, gridConfig := cfg236, sourceViews := [],
    frames := [], animations := [], animationGroupName := "PlayerAnimations",
    imagePath := "path/to/spritesheet.png" }

lemma gridCells_succ (r c : Int) (n : Nat) (hr : r.toNat = n + 1) :
    gridCells r c =
      gridCells (n : Int) c ++ (List.range c.toNat).map fun col => (n, col) := by
  unfold gridCells
  rw [hr, List.range_succ, List.flatMap_append]
  simp

lemma length_gridCells (r c : Int) :
    (gridCells r c).length = r.toNat * c.toNat := by
  generalize hn : r.toNat = n
  induction n generalizing r with
  | zero =>
      unfold gridCells
      rw [hn]
      simp
  | succ m ih =>
      rw [gridCells_succ r c m hn, List.length_append, ih (m : Int) (by simp)]
      simp [Nat.succ_mul]

lemma gridCells_getElem_aux (c : Int) (col : Nat) (hc : col < c.toNat)
    (n : Nat) : ∀ (r : Int), r.toNat = n → ∀ row : Nat, row < n →
    (gridCells r c)[row * c.toNat + col]? = some (row, col) := by
  induction n with
  | zero => omega
  | succ m ih =>
      intro r hn row hr
      rw [gridCells_succ r c m hn, List.getElem?_append]
      rw [length_gridCells]
      simp only [Int.toNat_natCast]
      rcases Nat.lt_succ_iff_lt_or_eq.mp hr with h | h
      · have hlt : row * c.toNat + col < m * c.toNat := by
          have h1 : row + 1 ≤ m := h
          calc row * c.toNat + col < row * c.toNat + c.toNat := by omega
            _ = (row + 1) * c.toNat := by ring
            _ ≤ m * c.toNat := Nat.mul_le_mul_right _ h1
        rw [if_pos hlt]
        exact ih (m : Int) (Int.toNat_natCast m) row h
      · subst h
        have hge : ¬ row * c.toNat + col < row * c.toNat := by omega
        rw [if_neg hge]
        have hsub : row * c.toNat + col - row * c.toNat = col := by omega
        rw [hsub, List.getElem?_map, List.getElem?_range hc]
        rfl

lemma gridCells_getElem? (r c : Int) (row col : Nat)
    (hr : row < r.toNat) (hc : col < c.toNat) :
    (gridCells r c)[row * c.toNat + col]? = some (row, col) :=
  gridCells_getElem_aux c col hc r.toNat r rfl row hr

lemma length_gridFrames (cfg : GridConfig) :
    (gridFrames cfg).length = cfg.rows.toNat * cfg.columns.toNat := by
  unfold gridFrames
  rw [List.length_map, List.enum_length, length_gridCells]

lemma gridFrames_getElem? (cfg : GridConfig) (row col : Nat)
    (hr : row < cfg.rows.toNat) (hc : col < cfg.columns.toNat) :
    (gridFrames cfg)[row * cfg.columns.toNat + col]? =
      some
        { index := row * cfg.columns.toNat + col
          x := cfg.originOffset.x + (col : Int) * (cfg.spriteWidth + cfg.margin.x)
          y := cfg.originOffset.y + (row : Int) * (cfg.spriteHeight + cfg.margin.y)
          width := cfg.spriteWidth
          height := cfg.spriteHeight } := by
  unfold gridFrames
  rw [List.getElem?_map, List.getElem?_enum,
    gridCells_getElem? cfg.rows cfg.columns row col hr hc]
  rfl

/-- C1: for every GridConfig with positive row and column counts and a loaded
image, `parseGridFrames` produces exactly rows*columns frames in row-major
order; the frame at position row*columns + col carries index row*columns +
col, position (originOffset.x + col*(spriteWidth + margin.x),
originOffset.y + row*(spriteHeight + margin.y)) and the configured sprite
width and height. -/
theorem grid_resolver_row_major (dims : ImageDims) (prev : List Frame)
    (cfg : GridConfig) (hr : 0 < cfg.rows) (hc : 0 < cfg.columns) :
    ((parseGridFrames (some dims) prev cfg).length : Int) =
        cfg.rows * cfg.columns ∧
    ∀ row col : Nat, (row : Int) < cfg.rows → (col : Int) < cfg.columns →
      (parseGridFrames (some dims) prev cfg)[row * cfg.columns.toNat + col]? =
        some
          { index := row * cfg.columns.toNat + col
            x := cfg.originOffset.x + (col : Int) * (cfg.spriteWidth + cfg.margin.x)
            y := cfg.originOffset.y + (row : Int) * (cfg.spriteHeight + cfg.margin.y)
            width := cfg.spriteWidth
            height := cfg.spriteHeight } := by
  constructor
  · show ((gridFrames cfg).length : Int) = cfg.rows * cfg.columns
    rw [length_gridFrames]
    push_cast
    rw [Int.toNat_of_nonneg hr.le, Int.toNat_of_nonneg hc.le]
  · intro row col hrow hcol
    exact gridFrames_getElem? cfg row col (by omega) (by omega)

/-- Witness for C1 at the spec's worked example: a 2 by 3 grid of 16 by 16
sprites yields 6 frames and frame 4 (row 1, column 1) sits at (16, 16). -/
theorem grid_resolver_row_major_witness :
    ((parseGridFrames (some ⟨64, 64⟩) [] cfg236).length : Int) =
        cfg236.rows * cfg236.columns ∧
    (parseGridFrames (some ⟨64, 64⟩) [] cfg236)[1 * cfg236.columns.toNat + 1]? =
      some
        { index := 1 * cfg236.columns.toNat + 1
          x := cfg236.originOffset.x + (1 : Int) * (cfg236.spriteWidth + cfg236.margin.x)
          y := cfg236.originOffset.y + (1 : Int) * (cfg236.spriteHeight + cfg236.margin.y)
          width := cfg236.spriteWidth
          height := cfg236.spriteHeight } :=
  ⟨(grid_resolver_row_major ⟨64, 64⟩ [] cfg236 (by decide) (by decide)).1,
   (grid_resolver_row_major ⟨64, 64⟩ [] cfg236 (by decide) (by decide)).2
      1 1 (by decide) (by decide)⟩

/-- C3 counterexample: the claim also promises an empty result for
spriteWidth ≤ 0, but with a loaded image, one row and one column and
spriteWidth = 0 the resolver still emits one (degenerate) frame. -/
theorem grid_invalid_dims_counterexample :
    cfgZeroWidth.spriteWidth ≤ 0 ∧ 0 < cfgZeroWidth.rows ∧
    0 < cfgZeroWidth.columns ∧
    parseGridFrames (some ⟨64, 64⟩) [] cfgZeroWidth ≠ [] := by decide

/-- C3 amended: for every GridConfig with rows ≤ 0 or columns ≤ 0 the resolver
yields an empty Frame[] and raises no error (it is a total function);
non-positive spriteWidth or spriteHeight does not empty the output — the
resolver still emits the rows*columns frames, with the non-positive
dimensions. -/
theorem grid_nonpositive_counts_empty (dims : ImageDims) (prev : List Frame)
    (cfg : GridConfig) (h : cfg.rows ≤ 0 ∨ cfg.columns ≤ 0) :
    parseGridFrames (some dims) prev cfg = [] := by
  show gridFrames cfg = []
  unfold gridFrames gridCells
  rcases h with h | h
  · rw [Int.toNat_of_nonpos h]
    simp
  · rw [Int.toNat_of_nonpos h]
    simp

/-- Witness for the amended C3: zero rows yield an empty frame list. -/
theorem grid_nonpositive_counts_empty_witness :
    parseGridFrames (some ⟨64, 64⟩) []
      { spriteWidth := 16, spriteHeight := 16, rows := 0, columns := 3,
        originOffset := ⟨0, 0⟩, margin := ⟨0, 0⟩ } = [] :=
  grid_nonpositive_counts_empty ⟨64, 64⟩ [] _ (Or.inl (by decide))

/-- C4: for every list of SourceViews, including the empty list,
`parseSourceViewFrames` produces a frame list of the same length, in stored
order, where the frame at position i copies the i-th view's rectangle and has
index i. -/
theorem sourceview_resolver_elementwise (svs : List SourceView) :
    (parseSourceViewFrames svs).length = svs.length ∧
    ∀ i : Nat, (parseSourceViewFrames svs)[i]? =
      svs[i]?.map fun sv =>
        { index := i, x := sv.x, y := sv.y, width := sv.width,
          height := sv.height } := by
  constructor
  · unfold parseSourceViewFrames
    rw [List.length_map, List.enum_length]
  · intro i
    unfold parseSourceViewFrames
    rw [List.getElem?_map, List.getElem?_enum]
    cases svs[i]? <;> rfl

lemma jsGet_eq_some_of_bounds {α : Type} (l : List α) (i : Int)
    (h0 : 0 ≤ i) (h1 : i < (l.length : Int)) :
    jsGet l i = some (l.get ⟨i.toNat, by omega⟩) := by
  unfold jsGet
  rw [if_neg (by omega)]
  exact List.getElem?_eq_getElem (by omega)

lemma jsGet_ne_nil {α : Type} {l : List α} {i : Int} {a : α}
    (h : jsGet l i = some a) : l.length ≠ 0 := by
  intro hlen
  unfold jsGet at h
  split at h
  · exact Option.noConfusion h
  · rw [List.getElem?_eq_none (by omega)] at h
    exact Option.noConfusion h

lemma animateTick_cases (anim : Animation) (s : PlayState) (e : Int)
    (s' : PlayState) (ht : animateTick anim s e = some s') :
    s' = s ∨ s' = advanceStep anim s := by
  unfold animateTick at ht
  split at ht
  · exact Or.inl (Option.some.inj ht).symm
  · split at ht
    · exact Or.inl (Option.some.inj ht).symm
    · split at ht
      · exact Option.noConfusion ht
      · split at ht
        · exact Or.inr (Option.some.inj ht).symm
        · exact Or.inl (Option.some.inj ht).symm

lemma advanceStep_frameIdx_bounds (anim : Animation) (s : PlayState)
    (hlen : 2 ≤ anim.frames.length) (h0 : 0 ≤ s.frameIdx)
    (h1 : s.frameIdx < (anim.frames.length : Int))
    (hd : s.direction = 1 ∨ s.direction = -1) :
    0 ≤ (advanceStep anim s).frameIdx ∧
      (advanceStep anim s).frameIdx < (anim.frames.length : Int) := by
  have hlen2 : (2 : Int) ≤ (anim.frames.length : Int) := by exact_mod_cast hlen
  unfold advanceStep
  cases anim.loopStrategy
  · simp only
    split
    · simp only
      constructor <;> omega
    · simp only
      constructor <;> omega
  · simp only
    split
    · simp only
      constructor <;> omega
    · simp only
      constructor <;> omega
  · simp only
    exact ⟨Int.tmod_nonneg _ (by omega), Int.tmod_lt_of_pos _ (by omega)⟩
  · rcases hd with hd | hd <;> simp only [hd] <;> split
    · simp only
      constructor <;> omega
    · split <;> simp only <;> constructor <;> omega
    · simp only
      constructor <;> omega
    · split <;> simp only <;> constructor <;> omega

/-- C2: the spec says that in PingPong mode a forward advance past the last
index flips the direction and bounces to frames.length - 2, degenerating to
index 0 for a single-frame animation, whose visited sequence should stay
constantly 0.  The code instead assigns frames.length - 2 = -1: the step index
underflows, and the next tick reads `.duration` of `frames[-1]`, which is a
TypeError (modelled as `none`). -/
theorem pingpong_single_frame_underflows :
    advanceStep pingAnim1 ⟨0, 1, true⟩ = ⟨-1, -1, true⟩ ∧
    animateTick pingAnim1 ⟨-1, -1, true⟩ 500 = none := by decide

/-- C5: with the End strategy, an advance that fires at the last step index
clears the playing signal and leaves the step index at the last index;
mid-sequence advances move one step forward; once stopped, any further tick
leaves the state unchanged; for a three-frame animation the visited sequence
is exactly 0, 1, 2 followed by the stopped state. -/
theorem end_strategy_stops (anim : Animation)
    (h : anim.loopStrategy = .End) :
    (∀ d : Int, advanceStep anim ⟨(anim.frames.length : Int) - 1, d, true⟩ =
        ⟨(anim.frames.length : Int) - 1, d, false⟩) ∧
    (∀ i d : Int, i + 1 < (anim.frames.length : Int) →
        advanceStep anim ⟨i, d, true⟩ = ⟨i + 1, d, true⟩) ∧
    (∀ (s : PlayState) (e : Int), s.isPlaying = false →
        animateTick anim s e = some s) ∧
    (anim.frames.length = 3 → ∀ d : Int,
      advanceStep anim ⟨0, d, true⟩ = ⟨1, d, true⟩ ∧
      advanceStep anim ⟨1, d, true⟩ = ⟨2, d, true⟩ ∧
      advanceStep anim ⟨2, d, true⟩ = ⟨2, d, false⟩) := by
  refine ⟨?_, ?_, ?_, ?_⟩
  · intro d
    simp only [advanceStep, h]
    rw [if_pos (by omega)]
  · intro i d hi
    simp only [advanceStep, h]
    rw [if_neg (by omega)]
  · intro s e hs
    simp only [animateTick, hs, if_pos]
  · intro hlen d
    refine ⟨?_, ?_, ?_⟩ <;>
      · simp only [advanceStep, h, hlen]
        norm_num

/-- Witness for C5 on a concrete three-frame End animation. -/
theorem end_strategy_stops_witness :
    advanceStep endAnim3 ⟨2, 1, true⟩ = ⟨2, 1, false⟩ ∧
    animateTick endAnim3 ⟨2, 1, false⟩ 1000 = some ⟨2, 1, false⟩ :=
  ⟨((end_strategy_stops endAnim3 rfl).2.2.2 rfl 1).2.2,
   (end_strategy_stops endAnim3 rfl).2.2.1 ⟨2, 1, false⟩ 1000 rfl⟩

/-- C7: with the Freeze strategy and at least one frame, an advance at the
last step index leaves the index at frames.length - 1 with the playing signal
still true; mid-sequence advances move one step forward; for a three-frame
animation the visited sequence is 0, 1, 2, 2, 2, ... indefinitely. -/
theorem freeze_strategy_holds (anim : Animation)
    (h : anim.loopStrategy = .Freeze) (_hlen : 1 ≤ anim.frames.length) :
    (∀ d : Int, advanceStep anim ⟨(anim.frames.length : Int) - 1, d, true⟩ =
        ⟨(anim.frames.length : Int) - 1, d, true⟩) ∧
    (∀ i d : Int, i + 1 < (anim.frames.length : Int) →
        advanceStep anim ⟨i, d, true⟩ = ⟨i + 1, d, true⟩) ∧
    (anim.frames.length = 3 → ∀ d : Int,
      advanceStep anim ⟨0, d, true⟩ = ⟨1, d, true⟩ ∧
      advanceStep anim ⟨1, d, true⟩ = ⟨2, d, true⟩ ∧
      advanceStep anim ⟨2, d, true⟩ = ⟨2, d, true⟩) := by
  refine ⟨?_, ?_, ?_⟩
  · intro d
    simp only [advanceStep, h]
    rw [if_pos (by omega)]
  · intro i d hi
    simp only [advanceStep, h]
    rw [if_neg (by omega)]
  · intro hlen3 d
    refine ⟨?_, ?_, ?_⟩ <;>
      · simp only [advanceStep, h, hlen3]
        norm_num

/-- Witness for C7 on a concrete three-frame Freeze animation. -/
theorem freeze_strategy_holds_witness :
    advanceStep freezeAnim3 ⟨2, 1, true⟩ = ⟨2, 1, true⟩ :=
  ((freeze_strategy_holds freezeAnim3 rfl (by decide)).2.2 rfl 1).2.2

/-- C9: for every animation with at least two frames and every loop strategy,
one tick applied to an in-bounds step index (with direction plus or minus one)
yields an in-bounds step index, so the preview's current frame index never
leaves [0, frames.length) during playback. -/
theorem playback_index_in_bounds (anim : Animation) (s s' : PlayState)
    (e : Int) (hlen : 2 ≤ anim.frames.length)
    (h0 : 0 ≤ s.frameIdx) (h1 : s.frameIdx < (anim.frames.length : Int))
    (hd : s.direction = 1 ∨ s.direction = -1)
    (ht : animateTick anim s e = some s') :
    0 ≤ s'.frameIdx ∧ s'.frameIdx < (anim.frames.length : Int) := by
  rcases animateTick_cases anim s e s' ht with rfl | rfl
  · exact ⟨h0, h1⟩
  · exact advanceStep_frameIdx_bounds anim s hlen h0 h1 hd

/-- Witness for C9: one tick on a three-frame End animation moves the index
from 0 to 1, staying in bounds. -/
theorem playback_index_in_bounds_witness :
    (0 : Int) ≤ (1 : Int) ∧ (1 : Int) < ((endAnim3.frames.length : Nat) : Int) :=
  playback_index_in_bounds endAnim3 ⟨0, 1, true⟩ ⟨1, 1, true⟩ 1000
    (by decide) (by decide) (by decide) (Or.inl rfl) (by decide)

/-- C6 counterexample: no positive clamping floor exists.  If every duration
consumed by the engine were clamped to some positive floor, a tick could only
fire a (state-changing) transition once at least that much time had elapsed;
but on a two-frame animation whose frames store duration 0, a tick with zero
elapsed time already fires a transition. -/
theorem no_duration_floor_counterexample :
    ¬ ∃ floor : Int, 0 < floor ∧
      ∀ (anim : Animation) (s : PlayState) (e : Int),
        animateTick anim s e = some (advanceStep anim s) ∧
          advanceStep anim s ≠ s → floor ≤ e := by
  rintro ⟨floor, hpos, h⟩
  have h0 := h zeroDurAnim ⟨0, 1, true⟩ 0 ⟨by decide, by decide⟩
  omega

/-- C6 amended: the engine applies no duration clamping: whenever playback is
on and the current frame's stored duration is ≤ 0, every delivered tick with
non-negative elapsed time immediately fires a transition — the non-positive
duration is compared as-is, i.e. treated as zero or negative.  There is still
no unbounded zero-delay transition loop inside a tick, because one delivered
tick performs at most one transition; transitions are paced by the external
animation-frame clock that delivers the ticks. -/
theorem unclamped_duration_fires_every_tick :
    (∀ (anim : Animation) (s : PlayState) (e : Int) (f : AnimationFrame),
      s.isPlaying = true → jsGet anim.frames s.frameIdx = some f →
      f.duration ≤ 0 → 0 ≤ e →
      animateTick anim s e = some (advanceStep anim s)) ∧
    (∀ (anim : Animation) (s : PlayState) (e : Int) (s' : PlayState),
      animateTick anim s e = some s' → s' = s ∨ s' = advanceStep anim s) := by
  constructor
  · intro anim s e f hp hget hdur he
    have hne := jsGet_ne_nil hget
    rw [animateTick, if_neg (by rw [hp]; exact fun hff => Bool.noConfusion hff),
      if_neg hne, hget]
    show (if e ≥ f.duration then some (advanceStep anim s) else some s) =
      some (advanceStep anim s)
    rw [if_pos (by omega)]
  · intro anim s e s' ht
    exact animateTick_cases anim s e s' ht

/-- Witness for the amended C6: on a two-frame Loop animation with
zero-duration frames, a tick with zero elapsed time fires a transition. -/
theorem unclamped_duration_fires_every_tick_witness :
    animateTick zeroDurAnim ⟨0, 1, true⟩ 0 =
      some (advanceStep zeroDurAnim ⟨0, 1, true⟩) :=
  unclamped_duration_fires_every_tick.1 zeroDurAnim ⟨0, 1, true⟩ 0 ⟨0, 0⟩
    rfl (by decide) (by decide) (by decide)

lemma spacingBlock_length_pos (cfg : GridConfig) :
    0 < (spacingBlock cfg).length := by
  unfold spacingBlock
  simp only [String.length_append]
  have h1 : 0 < (",\n  spacing: \x7b\n" : String).length := by decide
  omega

lemma hasSpacing_eq_false_iff (cfg : GridConfig) :
    hasSpacing cfg = false ↔
      cfg.originOffset.x = 0 ∧ cfg.originOffset.y = 0 ∧
      cfg.margin.x = 0 ∧ cfg.margin.y = 0 := by
  unfold hasSpacing
  simp [not_or]
  tauto

/-- C8: the emitted grid-mode configuration omits the originOffset/margin
spacing block exactly when all four of originOffset.x, originOffset.y,
margin.x, margin.y are zero; whenever any is nonzero, both sub-objects are
emitted with the exact configured values (the text of `spacingBlock`). -/
theorem grid_spacing_omitted_iff (cfg : GridConfig) :
    (gridBlock cfg = gridHead cfg ++ "\n\x7d);\n\n" ↔
      cfg.originOffset.x = 0 ∧ cfg.originOffset.y = 0 ∧
      cfg.margin.x = 0 ∧ cfg.margin.y = 0) ∧
    (¬ (cfg.originOffset.x = 0 ∧ cfg.originOffset.y = 0 ∧
        cfg.margin.x = 0 ∧ cfg.margin.y = 0) →
      gridBlock cfg = gridHead cfg ++ spacingBlock cfg ++ "\n\x7d);\n\n") := by
  by_cases hz : cfg.originOffset.x = 0 ∧ cfg.originOffset.y = 0 ∧
      cfg.margin.x = 0 ∧ cfg.margin.y = 0
  · have hs : hasSpacing cfg = false := (hasSpacing_eq_false_iff cfg).mpr hz
    have hb : gridBlock cfg = gridHead cfg ++ "\n\x7d);\n\n" := by
      rw [gridBlock, hs]
      simp
    exact ⟨iff_of_true hb hz, fun hcontra => absurd hz hcontra⟩
  · have hs : hasSpacing cfg = true := by
      cases h' : hasSpacing cfg
      · exact absurd ((hasSpacing_eq_false_iff cfg).mp h') hz
      · rfl
    have hb : gridBlock cfg =
        gridHead cfg ++ spacingBlock cfg ++ "\n\x7d);\n\n" := by
      rw [gridBlock, hs]
      simp
    have hne : gridBlock cfg ≠ gridHead cfg ++ "\n\x7d);\n\n" := by
      rw [hb]
      intro heq
      have hl := congrArg String.length heq
      simp only [String.length_append] at hl
      have hpos := spacingBlock_length_pos cfg
      omega
    exact ⟨iff_of_false hne hz, fun _ => hb⟩

/-- Witness for C8: with zero offset and margin the spacing block is omitted;
with margin x = 2 it is emitted with the configured values. -/
theorem grid_spacing_omitted_iff_witness :
    gridBlock cfg236 = gridHead cfg236 ++ "\n\x7d);\n\n" ∧
    gridBlock { cfg236 with margin := ⟨2, 0⟩ } =
      gridHead { cfg236 with margin := ⟨2, 0⟩ }
        ++ spacingBlock { cfg236 with margin := ⟨2, 0⟩ } ++ "\n\x7d);\n\n" :=
  ⟨(grid_spacing_omitted_iff cfg236).1.mpr (by decide),
   (grid_spacing_omitted_iff { cfg236 with margin := ⟨2, 0⟩ }).2 (by decide)⟩

/-- C10: `generateCode` returns the empty string whenever no image is loaded
or the resolved frame list is empty; and it is deterministic — it is a pure
function of the model state, so equal states yield identical output text. -/
theorem generateCode_empty_guard_deterministic :
    (∀ s : AppState, s.image = none ∨ s.frames = [] → generateCode s = "") ∧
    (∀ s t : AppState, s = t → generateCode s = generateCode t) := by
  constructor
  · intro s h
    rcases h with h | h <;> simp [generateCode, h]
  · intro s t h
    rw [h]

/-- Witness for C10: a state with no image (and no frames) emits nothing. -/
theorem generateCode_empty_guard_deterministic_witness :
    generateCode emptyState = "" :=
  generateCode_empty_guard_deterministic.1 emptyState (Or.inl rfl)

end AnimGen
